import Mathlib

/-!
Verification development for the YELL OAuth website (Discord OAuth2 callback
service).  The definitions below are a shallow embedding of the Python source
files `service.py` and `lambda_oauth.py`: query strings become association
lists, the two outbound provider calls become function parameters returning an
`Outcome` (the Python functions return `(data, error)` pairs where exactly one
component is `None` and every error message is a non-empty string), the Mongo
collection becomes a list of `UserRecord`s, and the Python exceptions that
`handle_callback` can raise (`ValueError` from `int(...)`, `KeyError` from
`user_data['username']`) become an `Except` error channel.
-/

set_option autoImplicit false

/-- Python truthiness of an optional string: `None` and the empty string are
falsy, every other string is truthy.  Models `if error:` / `if not code:` in
`handle_callback`. -/
def truthy : Option String → Bool
  | none => false
  | some s => !s.isEmpty

/-- Models Python `str.upper()` for ASCII strings (the error codes handled by
this service are ASCII). -/
def pyUpper (s : String) : String := ⟨s.toList.map Char.toUpper⟩

/-- Accumulating parser for the digit part of a Python integer literal:
digits with single underscores allowed between two digits (as accepted by
CPython `int(str)`).  Returns `none` on a malformed tail. -/
def pyDigitsCore : List Char → Nat → Option Nat
  | [], acc => some acc
  | '_' :: c :: cs, acc =>
      if c.isDigit then pyDigitsCore cs (acc * 10 + (c.toNat - 48)) else none
  | c :: cs, acc =>
      if c.isDigit then pyDigitsCore cs (acc * 10 + (c.toNat - 48)) else none

/-- The digit part of a Python integer literal must start with a digit. -/
def pyDigitsStart : List Char → Option Nat
  | [] => none
  | c :: cs => if c.isDigit then pyDigitsCore cs (c.toNat - 48) else none

/-- Models CPython `int(s)` on an ASCII string: surrounding whitespace is
stripped, an optional sign is accepted, then a non-empty digit sequence
(single underscores permitted between digits).  `none` models the
`ValueError` raised on any other input. -/
def pyIntOfString (s : String) : Option Int :=
  let cs := ((s.toList.dropWhile Char.isWhitespace).reverse.dropWhile
      Char.isWhitespace).reverse
  match cs with
  | '+' :: rest => (pyDigitsStart rest).map (fun n => (n : Int))
  | '-' :: rest => (pyDigitsStart rest).map (fun n => -(n : Int))
  | rest => (pyDigitsStart rest).map (fun n => (n : Int))

/-- A JSON identifier value as found in the provider's profile response:
Discord sends `id` as a decimal string, but the spec allows numeric ids too. -/
inductive JsonId where
  | str (s : String)
  | num (n : Int)
deriving DecidableEq

/-- Models `int(user_data['id'])`: a JSON number is already an int, a JSON
string goes through CPython string-to-int conversion, `none` models the
`ValueError` raised when the string is not a decimal integer literal. -/
def pyIntOfJson : JsonId → Option Int
  | .num n => some n
  | .str s => pyIntOfString s

/-- Uppercase hexadecimal digit for a value below 16. -/
def hexDigit (n : Nat) : Char :=
  if n < 10 then Char.ofNat (48 + n) else Char.ofNat (55 + n)

/-- Models Python `format(n, '04X')` for `n < 0x10000`: exactly four uppercase
hexadecimal digits, zero padded. -/
def hex4 (n : Nat) : String :=
  ⟨[hexDigit (n / 4096 % 16), hexDigit (n / 256 % 16),
    hexDigit (n / 16 % 16), hexDigit (n % 16)]⟩

/-- Is the character an uppercase hexadecimal digit (`0`-`9` or `A`-`F`)? -/
def isUpperHexDigit (c : Char) : Bool :=
  c.isDigit || ('A' ≤ c && c ≤ 'F')

/-- Models the pseudo-hex error code of `render_error` in both source files:
`format(hash(error_code) % 0xFFFF, '04X')`.  The argument `h` is the value of
Python `hash` on the error code string (an arbitrary, per-process-seeded
integer); the reduction is modulo `0xFFFF = 65535`. -/
def render_error_hex (h : Int) : String :=
  hex4 ((h % 0xFFFF).toNat)

/-- Modelled from the spec: the spec describes the displayed code as the hash
"masked to 16 bits, rendered as 4 uppercase hex digits", i.e. the low 16 bits
of the hash (reduction modulo `0x10000 = 65536`).  Stated for comparison with
`render_error_hex`, which follows the source. -/
def spec_error_hex_mask16 (h : Int) : String :=
  hex4 ((h % 0x10000).toNat)

/-- One document of the `oauth_users` Mongo collection, as written by
`save_user_to_pool` (`_id`, `username`, `discriminator`, `avatar`,
`connected_at`, `logged`, `pulled_guilds`). -/
structure UserRecord where
  _id : Int
  username : String
  discriminator : String
  avatar : Option String
  connected_at : Int
  logged : Bool
  pulled_guilds : List Int
deriving DecidableEq

/-- The Mongo collection keyed by `_id`, modelled as a list of documents. -/
abbrev Store := List UserRecord

/-- Models `update_one({'_id': user_id}, {'$set': doc}, upsert=True)` on the
`oauth_users` collection: replace the (first) document with the same `_id`,
or append the document when no `_id` matches. -/
def upsertRecord : Store → UserRecord → Store
  | [], doc => [doc]
  | r :: rs, doc => if r._id = doc._id then doc :: rs else r :: upsertRecord rs doc

/-- Models `save_user_to_pool` of both source files.  `dbSet` models whether
the Mongo handle is configured (`db is None` check in `service.py`, failed
`get_db()` in `lambda_oauth.py`); `storeFails` models the `except` branch (the
write raised, nothing was stored).  On success the document is upserted with
`connected_at = now`, `logged = False` and `pulled_guilds = []`, and `True` is
returned; every failure path returns `False` and leaves the store unchanged. -/
def save_user_to_pool (dbSet storeFails : Bool) (store : Store) (now : Int)
    (user_id : Int) (username discriminator : String) (avatar : Option String) :
    Bool × Store :=
  if !dbSet then (false, store)
  else if storeFails then (false, store)
  else (true, upsertRecord store
    { _id := user_id, username := username, discriminator := discriminator,
      avatar := avatar, connected_at := now, logged := false, pulled_guilds := [] })

/-- The token payload returned by a successful `exchange_code`: only the
`access_token` field is consulted (`token_data.get('access_token')`, `none`
when the field is absent). -/
structure TokenData where
  access_token : Option String
deriving DecidableEq

/-- The profile JSON returned by a successful `get_user_info`: `id` is a JSON
string or number, `username` / `discriminator` / `avatar` model dictionary
keys that may be absent (`none`). -/
structure UserData where
  id : JsonId
  username : Option String
  discriminator : Option String
  avatar : Option String
deriving DecidableEq

/-- Outcome of one outbound provider call.  The Python helpers return a
`(data, error)` pair where exactly one side is `None`; every produced error
message is a non-empty formatted string, so the pair is a sum. -/
inductive Outcome (α : Type) where
  | ok (v : α)
  | fail (msg : String)
deriving DecidableEq

/-- The Python exceptions `handle_callback` can raise while extracting the
profile fields: `ValueError` from `int(user_data['id'])` and `KeyError` from
`user_data['username']`. -/
inductive PyExc where
  | valueError
  | keyError
deriving DecidableEq

/-- The classified outcome of one callback invocation: either the success page
(rendered from the user id and display name) or the error page (rendered from
the error code and message). -/
inductive CallbackResult where
  | success (user_id : Int) (display_name : String)
  | failure (error_code : String) (error_message : String)
deriving DecidableEq

/-- A parsed query string: ordered key/value pairs. -/
abbrev Query := List (String × String)

/-- Models `request.query.get(k)` (aiohttp) and
`query_params.get(k, [None])[0]` (lambda): the first value bound to the key,
or `none` when the key is absent. -/
def qget (q : Query) (k : String) : Option String :=
  (q.find? (fun p => p.1 = k)).map (fun p => p.2)

/-- Models `request.query.get(k, d)`: the first value bound to the key, or the
default when the key is absent. -/
def qgetD (q : Query) (k d : String) : String :=
  (qget q k).getD d

/-- Models `handle_callback` of both source files.  `exchange_code` and
`get_user_info` are the two outbound provider calls, passed as functions;
`dbSet`/`storeFails`/`store`/`now` parameterise the store write exactly as in
`save_user_to_pool`.  The result carries the classified page next to the
post-write store; `Except.error` models an exception escaping the handler. -/
def handle_callback (q : Query)
    (exchange_code : String → Outcome TokenData)
    (get_user_info : String → Outcome UserData)
    (dbSet storeFails : Bool) (store : Store) (now : Int) :
    Except PyExc (CallbackResult × Store) :=
  let code := qget q "code"
  let error := qget q "error"
  if truthy error then
    .ok (.failure (pyUpper (error.getD ""))
          (qgetD q "error_description" "Authorization was denied."), store)
  else if !truthy code then
    .ok (.failure "NO_CODE" "No authorization code received.", store)
  else
    match exchange_code (code.getD "") with
    | .fail msg => .ok (.failure "TOKEN_ERROR" msg, store)
    | .ok token_data =>
      if !truthy token_data.access_token then
        .ok (.failure "NO_TOKEN" "No access token in response.", store)
      else
        match get_user_info (token_data.access_token.getD "") with
        | .fail msg => .ok (.failure "USER_ERROR" msg, store)
        | .ok user_data =>
          match pyIntOfJson user_data.id with
          | none => .error .valueError
          | some user_id =>
            match user_data.username with
            | none => .error .keyError
            | some username =>
              let discriminator := user_data.discriminator.getD "0"
              let avatar := user_data.avatar
              let saved := save_user_to_pool dbSet storeFails store now
                user_id username discriminator avatar
              let display_name :=
                if discriminator ≠ "0" then username ++ "#" ++ discriminator
                else username
              .ok (.success user_id display_name, saved.2)

/-- The claim-relevant fields of the JSON body served by `handle_health` in
`service.py` (`status`, `timestamp`, `mongodb`; the remaining fields are
constants or proxy echoes). -/
structure HealthBody where
  status : String
  timestamp : Int
  mongodb : String
deriving DecidableEq

/-- Models `handle_health` of `service.py`: status code 200 with
`status='healthy'` and `mongodb='connected'` when the Mongo handle is set,
status code 503 with `status='degraded'` and `mongodb='disconnected'`
otherwise; `timestamp` is the current epoch time. -/
def handle_health (dbSet : Bool) (now : Int) : Nat × HealthBody :=
  (if dbSet then 200 else 503,
   { status := if dbSet then "healthy" else "degraded",
     timestamp := now,
     mongodb := if dbSet then "connected" else "disconnected" })

/-- The JSON body of the `/health` branch of `lambda_handler` in
`lambda_oauth.py` (`status`, `timestamp`, `service`). -/
structure LambdaHealthBody where
  status : String
  timestamp : Int
  service : String
deriving DecidableEq

/-- Models the `/health` branch of `lambda_handler` in `lambda_oauth.py`: it
returns status code 200 with a constant body regardless of the Mongo handle.
The `dbSet` parameter records the state of the handle; the branch never
consults it. -/
def lambda_health (dbSet : Bool) (now : Int) : Nat × LambdaHealthBody :=
  (200, { status := "ok", timestamp := now, service := "oauth-lambda" })

/-! ### Helper lemmas -/

/-- A non-empty string is truthy. -/
theorem truthy_some_of_ne {s : String} (h : s ≠ "") : truthy (some s) = true := by
  have hie : s.isEmpty = false := by
    cases hb : s.isEmpty
    · rfl
    · exact absurd ((String.isEmpty_iff s).mp hb) h
  simp [truthy, hie]

/-- An absent parameter is falsy. -/
theorem truthy_none_eq : truthy none = false := rfl

/-- The upserted document is a member of the post-upsert store. -/
theorem mem_upsertRecord_self (store : Store) (doc : UserRecord) :
    doc ∈ upsertRecord store doc := by
  induction store with
  | nil => simp [upsertRecord]
  | cons r rs ih =>
    by_cases h : r._id = doc._id <;> simp [upsertRecord, h, ih]

/-- Every id present after an upsert was the upserted id or was already
present. -/
theorem mem_map_id_upsertRecord {x : Int} (store : Store) (doc : UserRecord)
    (hx : x ∈ (upsertRecord store doc).map (fun r => r._id)) :
    x = doc._id ∨ x ∈ store.map (fun r => r._id) := by
  induction store with
  | nil =>
    rw [upsertRecord, List.map_singleton, List.mem_singleton] at hx
    exact Or.inl hx
  | cons s rs ih =>
    rw [upsertRecord] at hx
    by_cases h : s._id = doc._id
    · rw [if_pos h, List.map_cons, List.mem_cons] at hx
      rcases hx with hx | hx
      · exact Or.inl hx
      · exact Or.inr (by rw [List.map_cons]; exact List.mem_cons_of_mem _ hx)
    · rw [if_neg h, List.map_cons, List.mem_cons] at hx
      rcases hx with hx | hx
      · exact Or.inr (by rw [List.map_cons, hx]; exact List.mem_cons_self _ _)
      · rcases ih hx with hx | hx
        · exact Or.inl hx
        · exact Or.inr (by rw [List.map_cons]; exact List.mem_cons_of_mem _ hx)

/-- When the store has pairwise-distinct ids, the only post-upsert record
carrying the upserted id is the upserted document itself. -/
theorem eq_of_mem_upsertRecord_id (store : Store) (doc : UserRecord)
    (hnd : (store.map (fun r => r._id)).Nodup) :
    ∀ r ∈ upsertRecord store doc, r._id = doc._id → r = doc := by
  induction store with
  | nil =>
    intro r hr _
    simpa [upsertRecord] using hr
  | cons s rs ih =>
    rw [List.map_cons, List.nodup_cons] at hnd
    intro r hr hid
    by_cases h : s._id = doc._id
    · simp only [upsertRecord, if_pos h, List.mem_cons] at hr
      rcases hr with hr | hr
      · exact hr
      · have hm : r._id ∈ rs.map (fun r => r._id) :=
          List.mem_map_of_mem (fun r => r._id) hr
        rw [hid, ← h] at hm
        exact absurd hm hnd.1
    · simp only [upsertRecord, if_neg h, List.mem_cons] at hr
      rcases hr with hr | hr
      · subst hr
        exact absurd hid h
      · exact ih hnd.2 r hr hid

/-- Upserting preserves distinctness of the stored ids. -/
theorem nodup_map_id_upsertRecord (store : Store) (doc : UserRecord)
    (hnd : (store.map (fun r => r._id)).Nodup) :
    ((upsertRecord store doc).map (fun r => r._id)).Nodup := by
  induction store with
  | nil => simp [upsertRecord]
  | cons s rs ih =>
    rw [List.map_cons, List.nodup_cons] at hnd
    by_cases h : s._id = doc._id
    · simp only [upsertRecord, h, if_pos, List.map_cons, List.nodup_cons]
      exact ⟨h ▸ hnd.1, hnd.2⟩
    · simp only [upsertRecord, h, if_neg, not_false_iff, List.map_cons,
        List.nodup_cons]
      refine ⟨fun hmem => ?_, ih hnd.2⟩
      rcases mem_map_id_upsertRecord rs doc hmem with hx | hx
      · exact h hx
      · exact hnd.1 hx

/-- Any sequence of upserts starting from a store with distinct ids ends in a
store with distinct ids. -/
theorem nodup_map_id_foldl_upsert (docs : List UserRecord) (store : Store)
    (hnd : (store.map (fun r => r._id)).Nodup) :
    ((docs.foldl upsertRecord store).map (fun r => r._id)).Nodup := by
  induction docs generalizing store with
  | nil => exact hnd
  | cons doc docs ih => exact ih _ (nodup_map_id_upsertRecord store doc hnd)

/-- The success path of `handle_callback` as one equation: with no truthy
`error` parameter, a truthy `code`, a successful exchange carrying a truthy
access token, a successful profile fetch, a decimal-parseable `id` and a
present `username`, the handler renders the success page and threads the
store through `save_user_to_pool`. -/
theorem handle_callback_success_run
    (q : Query) (exch : String → Outcome TokenData)
    (fetch : String → Outcome UserData)
    (dbSet storeFails : Bool) (store : Store) (now : Int)
    (c a un : String) (td : TokenData) (ud : UserData) (uid : Int)
    (he : truthy (qget q "error") = false)
    (hc : qget q "code" = some c) (hcne : c ≠ "")
    (hex : exch c = .ok td)
    (ha : td.access_token = some a) (hane : a ≠ "")
    (hf : fetch a = .ok ud)
    (hid : pyIntOfJson ud.id = some uid)
    (hun : ud.username = some un) :
    handle_callback q exch fetch dbSet storeFails store now =
      .ok (.success uid
            (if ud.discriminator.getD "0" ≠ "0"
             then un ++ "#" ++ ud.discriminator.getD "0" else un),
           (save_user_to_pool dbSet storeFails store now uid un
             (ud.discriminator.getD "0") ud.avatar).2) := by
  simp only [handle_callback, he, hc, Bool.false_eq_true, if_false,
    Option.getD_some, truthy_some_of_ne hcne, Bool.not_true, hex, ha,
    truthy_some_of_ne hane, hf, hid, hun]

/-! ### Claim theorems -/

/-- C2 counterexample: the code reduces the hash modulo `0xFFFF = 65535`,
which is not a 16-bit mask: at hash value 65535 the rendered code is `0000`
while the low 16 bits of 65535 render as `FFFF`. -/
theorem c2_counterexample :
    render_error_hex 65535 = "0000"
    ∧ spec_error_hex_mask16 65535 = "FFFF"
    ∧ render_error_hex 65535 ≠ spec_error_hex_mask16 65535 :=
  ⟨by decide, by decide, by decide⟩

/-- C2 (amended): the pseudo-hex code displayed on the error page is the
process hash of the error-code string reduced modulo `0xFFFF` (65535, not a
16-bit mask), rendered as exactly 4 uppercase hexadecimal digits; it is a
deterministic function of the hash value, with period 65535. -/
theorem c2_pseudo_hex_format (h : Int) :
    (render_error_hex h).length = 4
    ∧ (render_error_hex h).toList.all isUpperHexDigit = true
    ∧ render_error_hex (h + 0xFFFF) = render_error_hex h := by
  have hup : ∀ n : Nat, n < 16 → isUpperHexDigit (hexDigit n) = true := by decide
  refine ⟨rfl, ?_, ?_⟩
  · have e : (render_error_hex h).toList
        = [hexDigit ((h % 0xFFFF).toNat / 4096 % 16),
           hexDigit ((h % 0xFFFF).toNat / 256 % 16),
           hexDigit ((h % 0xFFFF).toNat / 16 % 16),
           hexDigit ((h % 0xFFFF).toNat % 16)] := rfl
    rw [e]
    simp [List.all_cons, hup _ (Nat.mod_lt _ (by norm_num))]
  · have e : (h + 0xFFFF) % 0xFFFF = h % 0xFFFF := by omega
    unfold render_error_hex
    rw [e]

/-- C3 counterexample: the `/health` branch of `lambda_handler` in
`lambda_oauth.py` answers status 200 even when the Mongo handle is unset (it
never consults the store), contradicting "status 503 whenever the store is
disconnected". -/
theorem c3_counterexample :
    (lambda_health false 0).1 = 200 ∧ (lambda_health false 0).1 ≠ 503 :=
  ⟨rfl, by decide⟩

/-- C3 (amended): in `service.py`, `handle_health` responds 200 with status
`healthy`, the current timestamp and `mongodb = connected` when the Mongo
handle is set, and responds 503 with `mongodb = disconnected` when it is
unset; the `/health` branch of `lambda_oauth.py` instead always responds 200
with a constant body that carries no store connectivity. -/
theorem c3_health_response (now : Int) :
    (handle_health true now).1 = 200
    ∧ (handle_health true now).2.status = "healthy"
    ∧ (handle_health true now).2.timestamp = now
    ∧ (handle_health true now).2.mongodb = "connected"
    ∧ (handle_health false now).1 = 503
    ∧ (handle_health false now).2.status = "degraded"
    ∧ (handle_health false now).2.mongodb = "disconnected" :=
  ⟨rfl, rfl, rfl, rfl, rfl, rfl, rfl⟩

/-- C5 counterexample: a query string containing an `error` parameter with an
empty value is not classified by the `error` branch (`if error:` is falsy on
the empty string): with `error=` and a `code` present, the flow proceeds to
the exchange and renders `TOKEN_ERROR`, not a failure carrying the uppercased
(empty) `error` value. -/
theorem c5_counterexample :
    handle_callback [("error", ""), ("code", "abc")]
        (fun _ => .fail "Token exchange failed (400): invalid_grant")
        (fun _ => .fail "unused")
        true false [] 0
      = .ok (.failure "TOKEN_ERROR" "Token exchange failed (400): invalid_grant", [])
    ∧ "TOKEN_ERROR" ≠ pyUpper "" :=
  ⟨rfl, by decide⟩

/-- C5 (amended): for every callback query string containing an `error`
parameter with a non-empty value, the result is a failure page whose error
code is the uppercased `error` value and whose message is the
`error_description` value (defaulted), regardless of `code` presence and of
every later step. -/
theorem c5_error_param_uppercased (q : Query)
    (exch : String → Outcome TokenData) (fetch : String → Outcome UserData)
    (dbSet storeFails : Bool) (store : Store) (now : Int) (e : String)
    (he : qget q "error" = some e) (hne : e ≠ "") :
    handle_callback q exch fetch dbSet storeFails store now =
      .ok (.failure (pyUpper e)
            (qgetD q "error_description" "Authorization was denied."), store) := by
  simp only [handle_callback, he, truthy_some_of_ne hne, if_true,
    Option.getD_some]

/-- C5 witness: concrete run with `error=access_denied`. -/
theorem c5_witness :
    qget [("error", "access_denied")] "error" = some "access_denied"
    ∧ ("access_denied" : String) ≠ ""
    ∧ handle_callback [("error", "access_denied")]
        (fun _ => .fail "unused") (fun _ => .fail "unused")
        true false [] 0
      = .ok (.failure (pyUpper "access_denied")
            (qgetD [("error", "access_denied")] "error_description"
              "Authorization was denied."), []) :=
  ⟨rfl, by decide,
   c5_error_param_uppercased [("error", "access_denied")]
     (fun _ => .fail "unused") (fun _ => .fail "unused")
     true false [] 0 "access_denied" rfl (by decide)⟩

/-- C7: when the exchange succeeds but the token payload has no access-token
field, the flow renders the `NO_TOKEN` error page. -/
theorem c7_no_token (q : Query)
    (exch : String → Outcome TokenData) (fetch : String → Outcome UserData)
    (dbSet storeFails : Bool) (store : Store) (now : Int)
    (c : String) (td : TokenData)
    (he : truthy (qget q "error") = false)
    (hc : qget q "code" = some c) (hcne : c ≠ "")
    (hex : exch c = .ok td)
    (ht : td.access_token = none) :
    handle_callback q exch fetch dbSet storeFails store now =
      .ok (.failure "NO_TOKEN" "No access token in response.", store) := by
  simp only [handle_callback, he, hc, Bool.false_eq_true, if_false,
    Option.getD_some, truthy_some_of_ne hcne, Bool.not_true, hex, ht,
    truthy_none_eq, Bool.not_false, if_true]

/-- C7 witness: concrete run with a token payload lacking `access_token`. -/
theorem c7_witness :
    truthy (qget [("code", "abc")] "error") = false
    ∧ qget [("code", "abc")] "code" = some "abc"
    ∧ ("abc" : String) ≠ ""
    ∧ (fun (_ : String) => Outcome.ok (⟨none⟩ : TokenData)) "abc"
        = .ok (⟨none⟩ : TokenData)
    ∧ (⟨none⟩ : TokenData).access_token = none
    ∧ handle_callback [("code", "abc")]
        (fun _ => .ok ⟨none⟩) (fun _ => .fail "unused")
        true false [] 0
      = .ok (.failure "NO_TOKEN" "No access token in response.", []) :=
  ⟨rfl, rfl, by decide, rfl, rfl,
   c7_no_token [("code", "abc")] (fun _ => .ok ⟨none⟩) (fun _ => .fail "unused")
     true false [] 0 "abc" ⟨none⟩ rfl rfl (by decide) rfl rfl⟩

/-- C8: when the query string contains neither a `code` nor an `error`
parameter, the flow renders the `NO_CODE` error page. -/
theorem c8_no_code (q : Query)
    (exch : String → Outcome TokenData) (fetch : String → Outcome UserData)
    (dbSet storeFails : Bool) (store : Store) (now : Int)
    (hc : qget q "code" = none) (he : qget q "error" = none) :
    handle_callback q exch fetch dbSet storeFails store now =
      .ok (.failure "NO_CODE" "No authorization code received.", store) := by
  simp only [handle_callback, he, hc, truthy, Bool.not_false, if_true,
    Bool.false_eq_true, if_false]

/-- C8 witness: concrete run with an empty query string. -/
theorem c8_witness :
    qget ([] : Query) "code" = none
    ∧ qget ([] : Query) "error" = none
    ∧ handle_callback [] (fun _ => .fail "unused") (fun _ => .fail "unused")
        true false [] 0
      = .ok (.failure "NO_CODE" "No authorization code received.", []) :=
  ⟨rfl, rfl,
   c8_no_code [] (fun _ => .fail "unused") (fun _ => .fail "unused")
     true false [] 0 rfl rfl⟩

/-- C10: a profile response accepted by the fetch (modelled as a parsed JSON
object) whose `id` is not a decimal integer string makes `handle_callback`
raise `ValueError` from `int(user_data['id'])`, and one lacking the
`username` key makes it raise `KeyError` from `user_data['username']`; in
both cases no success page and no classified error page is produced. -/
theorem c10_malformed_profile_raises :
    handle_callback [("code", "abc")] (fun _ => .ok ⟨some "tok"⟩)
        (fun _ => .ok ⟨.str "not-a-number", some "alice", some "0", none⟩)
        true false [] 0
      = .error .valueError
    ∧ handle_callback [("code", "abc")] (fun _ => .ok ⟨some "tok"⟩)
        (fun _ => .ok ⟨.str "123", none, some "0", none⟩)
        true false [] 0
      = .error .keyError :=
  ⟨rfl, rfl⟩

/-- C1 counterexample: the callback does `int(user_data['id'])`, so an id
received as the JSON string `"007"` is stored as the integer `7` — the stored
value is a reinterpretation, not the identifier exactly as received. -/
theorem c1_counterexample :
    handle_callback [("code", "abc")] (fun _ => .ok ⟨some "tok"⟩)
        (fun _ => .ok ⟨.str "007", some "alice", some "0", none⟩)
        true false [] 0
      = .ok (.success 7 "alice", [⟨7, "alice", "0", none, 0, false, []⟩])
    ∧ JsonId.num 7 ≠ JsonId.str "007" :=
  ⟨rfl, by decide⟩

/-- C1 (amended): for every successful callback flow, the persisted record's
`_id` is `int(user_data['id'])` — the decimal integer reinterpretation of the
provider-issued identifier (hypothesis `hid`), not the identifier verbatim:
string ids are converted to integers (losing, e.g., leading zeros), and ids
that are not decimal integer strings are never stored at all. -/
theorem c1_stored_id_int_reinterpreted
    (q : Query) (exch : String → Outcome TokenData)
    (fetch : String → Outcome UserData) (store : Store) (now : Int)
    (c a un : String) (td : TokenData) (ud : UserData) (uid : Int)
    (he : truthy (qget q "error") = false)
    (hc : qget q "code" = some c) (hcne : c ≠ "")
    (hex : exch c = .ok td)
    (ha : td.access_token = some a) (hane : a ≠ "")
    (hf : fetch a = .ok ud)
    (hid : pyIntOfJson ud.id = some uid)
    (hun : ud.username = some un) :
    handle_callback q exch fetch true false store now =
      .ok (.success uid
            (if ud.discriminator.getD "0" ≠ "0"
             then un ++ "#" ++ ud.discriminator.getD "0" else un),
           upsertRecord store
             ⟨uid, un, ud.discriminator.getD "0", ud.avatar, now, false, []⟩)
    ∧ (⟨uid, un, ud.discriminator.getD "0", ud.avatar, now, false, []⟩ : UserRecord)
        ∈ upsertRecord store
            ⟨uid, un, ud.discriminator.getD "0", ud.avatar, now, false, []⟩ := by
  constructor
  · rw [handle_callback_success_run q exch fetch true false store now c a un td
      ud uid he hc hcne hex ha hane hf hid hun]
    rfl
  · exact mem_upsertRecord_self store _

/-- C1 witness: concrete run storing id 123 received as the string "123". -/
theorem c1_witness :
    handle_callback [("code", "abc")] (fun _ => .ok ⟨some "tok"⟩)
        (fun _ => .ok ⟨.str "123", some "alice", some "0", none⟩)
        true false [] 0
      = .ok (.success 123 "alice", [⟨123, "alice", "0", none, 0, false, []⟩])
    ∧ (⟨123, "alice", "0", none, 0, false, []⟩ : UserRecord)
        ∈ [(⟨123, "alice", "0", none, 0, false, []⟩ : UserRecord)] :=
  have h := c1_stored_id_int_reinterpreted [("code", "abc")]
    (fun _ => .ok ⟨some "tok"⟩)
    (fun _ => .ok ⟨.str "123", some "alice", some "0", none⟩) [] 0
    "abc" "tok" "alice" ⟨some "tok"⟩ ⟨.str "123", some "alice", some "0", none⟩
    123 rfl rfl (by decide) rfl rfl (by decide) rfl rfl rfl
  ⟨h.1, h.2⟩

/-- C4: when parameter parsing, code exchange and profile fetch succeed (and
the fetched profile is well-formed), the flow renders the success page for
every store condition — handle unset (`dbSet = false`), write raising
(`storeFails = true`), or any store contents: the store outcome is ignored
and never yields an error page. -/
theorem c4_store_failure_nonfatal
    (q : Query) (exch : String → Outcome TokenData)
    (fetch : String → Outcome UserData)
    (dbSet storeFails : Bool) (store : Store) (now : Int)
    (c a un : String) (td : TokenData) (ud : UserData) (uid : Int)
    (he : truthy (qget q "error") = false)
    (hc : qget q "code" = some c) (hcne : c ≠ "")
    (hex : exch c = .ok td)
    (ha : td.access_token = some a) (hane : a ≠ "")
    (hf : fetch a = .ok ud)
    (hid : pyIntOfJson ud.id = some uid)
    (hun : ud.username = some un) :
    (handle_callback q exch fetch dbSet storeFails store now).map Prod.fst
      = .ok (.success uid
          (if ud.discriminator.getD "0" ≠ "0"
           then un ++ "#" ++ ud.discriminator.getD "0" else un)) := by
  rw [handle_callback_success_run q exch fetch dbSet storeFails store now c a
    un td ud uid he hc hcne hex ha hane hf hid hun]
  rfl

/-- C4 witness: the same otherwise-valid flow renders the success page with
the store unconfigured and with the store write failing. -/
theorem c4_witness :
    (handle_callback [("code", "abc")] (fun _ => .ok ⟨some "tok"⟩)
        (fun _ => .ok ⟨.str "123", some "alice", some "0", none⟩)
        false true [] 0).map Prod.fst
      = .ok (.success 123 "alice")
    ∧ (handle_callback [("code", "abc")] (fun _ => .ok ⟨some "tok"⟩)
        (fun _ => .ok ⟨.str "123", some "alice", some "0", none⟩)
        true true [] 0).map Prod.fst
      = .ok (.success 123 "alice") :=
  ⟨c4_store_failure_nonfatal [("code", "abc")] (fun _ => .ok ⟨some "tok"⟩)
      (fun _ => .ok ⟨.str "123", some "alice", some "0", none⟩) false true [] 0
      "abc" "tok" "alice" ⟨some "tok"⟩ ⟨.str "123", some "alice", some "0", none⟩
      123 rfl rfl (by decide) rfl rfl (by decide) rfl rfl rfl,
   c4_store_failure_nonfatal [("code", "abc")] (fun _ => .ok ⟨some "tok"⟩)
      (fun _ => .ok ⟨.str "123", some "alice", some "0", none⟩) true true [] 0
      "abc" "tok" "alice" ⟨some "tok"⟩ ⟨.str "123", some "alice", some "0", none⟩
      123 rfl rfl (by decide) rfl rfl (by decide) rfl rfl rfl⟩

/-- C6: on the success path the displayed name is
`username ++ "#" ++ discriminator` when the profile's discriminator is
present and not the literal `"0"`, and just `username` when the discriminator
is absent or `"0"`. -/
theorem c6_display_name
    (q : Query) (exch : String → Outcome TokenData)
    (fetch : String → Outcome UserData)
    (dbSet storeFails : Bool) (store : Store) (now : Int)
    (c a un : String) (td : TokenData) (ud : UserData) (uid : Int)
    (he : truthy (qget q "error") = false)
    (hc : qget q "code" = some c) (hcne : c ≠ "")
    (hex : exch c = .ok td)
    (ha : td.access_token = some a) (hane : a ≠ "")
    (hf : fetch a = .ok ud)
    (hid : pyIntOfJson ud.id = some uid)
    (hun : ud.username = some un) :
    (∀ d, ud.discriminator = some d → d ≠ "0" →
      (handle_callback q exch fetch dbSet storeFails store now).map Prod.fst
        = .ok (.success uid (un ++ "#" ++ d)))
    ∧ (ud.discriminator = none ∨ ud.discriminator = some "0" →
      (handle_callback q exch fetch dbSet storeFails store now).map Prod.fst
        = .ok (.success uid un)) := by
  have h := handle_callback_success_run q exch fetch dbSet storeFails store
    now c a un td ud uid he hc hcne hex ha hane hf hid hun
  constructor
  · intro d hd hdne
    rw [h, hd]
    simp [Except.map, hdne]
  · intro hcase
    rcases hcase with h0 | h0 <;> rw [h, h0] <;> simp [Except.map]

/-- C6 witness: discriminator `4242` yields `alice#4242`; discriminator `0`
yields `alice`. -/
theorem c6_witness :
    (handle_callback [("code", "abc")] (fun _ => .ok ⟨some "tok"⟩)
        (fun _ => .ok ⟨.str "123", some "alice", some "4242", none⟩)
        true false [] 0).map Prod.fst
      = .ok (.success 123 ("alice" ++ "#" ++ "4242"))
    ∧ (handle_callback [("code", "abc")] (fun _ => .ok ⟨some "tok"⟩)
        (fun _ => .ok ⟨.str "123", some "alice", some "0", none⟩)
        true false [] 0).map Prod.fst
      = .ok (.success 123 "alice") :=
  ⟨(c6_display_name [("code", "abc")] (fun _ => .ok ⟨some "tok"⟩)
      (fun _ => .ok ⟨.str "123", some "alice", some "4242", none⟩) true false
      [] 0 "abc" "tok" "alice" ⟨some "tok"⟩
      ⟨.str "123", some "alice", some "4242", none⟩ 123
      rfl rfl (by decide) rfl rfl (by decide) rfl rfl rfl).1
        "4242" rfl (by decide),
   (c6_display_name [("code", "abc")] (fun _ => .ok ⟨some "tok"⟩)
      (fun _ => .ok ⟨.str "123", some "alice", some "0", none⟩) true false
      [] 0 "abc" "tok" "alice" ⟨some "tok"⟩
      ⟨.str "123", some "alice", some "0", none⟩ 123
      rfl rfl (by decide) rfl rfl (by decide) rfl rfl rfl).2 (Or.inr rfl)⟩

/-- C9: on a store with pairwise-distinct ids, `save_user_to_pool` reports
success, the stored document for the id carries `logged = false`,
`pulled_guilds = []` and `connected_at = now` (any previous record with that
id is replaced), the ids stay pairwise distinct, and they stay pairwise
distinct after any further sequence of upserts. -/
theorem c9_upsert_replaces_and_resets (store : Store) (now uid : Int)
    (un d : String) (av : Option String)
    (hnd : (store.map (fun r => r._id)).Nodup) :
    (save_user_to_pool true false store now uid un d av).1 = true
    ∧ (⟨uid, un, d, av, now, false, []⟩ : UserRecord)
        ∈ (save_user_to_pool true false store now uid un d av).2
    ∧ (∀ r ∈ (save_user_to_pool true false store now uid un d av).2,
        r._id = uid → r = ⟨uid, un, d, av, now, false, []⟩)
    ∧ ((save_user_to_pool true false store now uid un d av).2.map
        (fun r => r._id)).Nodup
    ∧ (∀ docs : List UserRecord,
        ((docs.foldl upsertRecord
          (save_user_to_pool true false store now uid un d av).2).map
            (fun r => r._id)).Nodup) := by
  refine ⟨rfl, mem_upsertRecord_self store _, ?_, ?_, ?_⟩
  · exact eq_of_mem_upsertRecord_id store _ hnd
  · exact nodup_map_id_upsertRecord store _ hnd
  · intro docs
    exact nodup_map_id_foldl_upsert docs _ (nodup_map_id_upsertRecord store _ hnd)

/-- C9 witness: re-saving user 5 over an existing record for user 5 reports
success, stores the reset document, and keeps ids distinct. -/
theorem c9_witness :
    ([(⟨5, "bob", "9", none, 1, true, [3]⟩ : UserRecord)].map
        (fun r => r._id)).Nodup
    ∧ (save_user_to_pool true false [⟨5, "bob", "9", none, 1, true, [3]⟩]
        2 5 "alice" "0" none).1 = true
    ∧ (⟨5, "alice", "0", none, 2, false, []⟩ : UserRecord)
        ∈ (save_user_to_pool true false [⟨5, "bob", "9", none, 1, true, [3]⟩]
            2 5 "alice" "0" none).2
    ∧ ((save_user_to_pool true false [⟨5, "bob", "9", none, 1, true, [3]⟩]
        2 5 "alice" "0" none).2.map (fun r => r._id)).Nodup :=
  have h := c9_upsert_replaces_and_resets
    [⟨5, "bob", "9", none, 1, true, [3]⟩] 2 5 "alice" "0" none (by decide)
  ⟨by decide, h.1, h.2.1, h.2.2.2.1⟩
